import Mathlib

/-! Shallow embedding of src/lab01/main.py: the retrying GraphQL transport
(post_graphql_com_retry), the cursor-based paginator
(buscar_repositorios_paginado), and the closed-issues ratio derivation
inside salvar_csv.

Network effects are modelled by an oracle of type Nat → Request → Outcome
giving the upstream outcome of the i-th HTTP POST issued by a run
(i counts every request, across retry attempts and across pages).
Sleeps are recorded in a list instead of being performed, so that the
backoff schedule is an observable value.
-/

namespace Lab01

/-- A repository node.  The paginator treats nodes as opaque values and only
accumulates them, so a single tag field suffices. -/
structure Record where
  id : Nat
deriving Repr, DecidableEq

/-- Parsed JSON body of a GraphQL response, flattening exactly the access
paths the paginator reads: errors models presence of the top-level
"errors" key; edges models data.search.edges (each edge node, possibly
null); hasNextPage and endCursor model data.search.pageInfo (an absent
pageInfo behaves as a falsy hasNextPage and an absent endCursor, which the
flattening represents directly). -/
structure Body where
  errors : Option (List String)
  edges : List (Option Record)
  hasNextPage : Bool
  endCursor : Option String
deriving Repr, DecidableEq

/-- An HTTP response: status code plus parsed body. -/
structure Resp where
  status : Nat
  body : Body
deriving Repr, DecidableEq

/-- Outcome of one HTTP POST: a response, or a network-level timeout
(requests.exceptions.Timeout). -/
inductive Outcome where
  | resp (r : Resp)
  | timeout
deriving Repr, DecidableEq

/-- The GraphQL variables of one request: the fixed search string, the page
size (first) and the optional continuation cursor (after).  The constant
query text from montar_query is not modelled since no branching reads it. -/
structure Request where
  queryString : String
  first : Nat
  after : Option String
deriving Repr, DecidableEq

/-- Errors raised by the code: the two ValueError messages of
buscar_repositorios_paginado, the RuntimeError for a missing API_TOKEN, the
RuntimeError for a non-transient HTTP status, the RuntimeError raised after
max_tentativas transient failures, and the RuntimeError for a GraphQL errors
list in a 200 body. -/
inductive Err where
  | validationTotal
  | validationPorPagina
  | missingToken
  | graphQLFailure (status : Nat)
  | retriesExhausted
  | graphQLErrors (errs : List String)
deriving Repr, DecidableEq

/-- Observable result of one call to post_graphql_com_retry: the returned
response or raised error, the list of backoff delays slept (in order), and
the updated global count of requests issued. -/
structure RetryRun where
  result : Except Err Resp
  slept : List Nat
  requests : Nat
deriving Repr

/-- Python truthiness of an optional string: None and the empty string are
falsy (used for endCursor and for the API_TOKEN value). -/
def strTruthy : Option String → Bool
  | none => false
  | some s => !(s == "")

/-- Membership in the transient set the code actually retries: HTTP
502/503/504, or a network timeout. -/
def isTransient : Outcome → Bool
  | .timeout => true
  | .resp r => r.status == 502 || r.status == 503 || r.status == 504

/-- Loop body of post_graphql_com_retry.  Arguments after the payload:
remaining attempts, current backoff delay (espera), delays slept so far,
and the number of requests issued so far by the whole run. -/
def retryGo (oracle : Nat → Request → Outcome) (payload : Request) :
    Nat → Nat → List Nat → Nat → RetryRun
  | 0, _, slept, reqs => ⟨.error .retriesExhausted, slept, reqs⟩
  | fuel + 1, espera, slept, reqs =>
    match oracle reqs payload with
    | .timeout =>
        retryGo oracle payload fuel (min (espera * 2) 20) (slept ++ [espera]) (reqs + 1)
    | .resp r =>
        if r.status = 200 then ⟨.ok r, slept, reqs + 1⟩
        else if r.status = 502 ∨ r.status = 503 ∨ r.status = 504 then
          retryGo oracle payload fuel (min (espera * 2) 20) (slept ++ [espera]) (reqs + 1)
        else ⟨.error (.graphQLFailure r.status), slept, reqs + 1⟩

/-- post_graphql_com_retry: espera starts at 1 and the attempt loop runs
max_tentativas times; reqs0 is the global request counter at entry. -/
def post_graphql_com_retry (oracle : Nat → Request → Outcome) (payload : Request)
    (max_tentativas : Nat) (reqs0 : Nat) : RetryRun :=
  retryGo oracle payload max_tentativas 1 [] reqs0

/-- The canonical backoff delay before retrying after the (i+1)-th
consecutive transient failure: 1, 2, 4, 8, 16, 20, 20, ... -/
def backoffDelay (i : Nat) : Nat := min (2 ^ i) 20

/-- Result of one call to buscar_repositorios_paginado: the returned node
list, a raised error, or divergence (the while loop still running after the
fuel bound), plus the total number of requests issued. -/
inductive FetchResult where
  | ok (repos : List Record)
  | fail (e : Err)
  | diverged
deriving Repr, DecidableEq

/-- A fetch outcome together with the number of HTTP requests issued. -/
structure FetchRun where
  result : FetchResult
  requests : Nat
deriving Repr, DecidableEq

/-- One iteration of the pagination while loop either finishes the call
(done) or continues with a grown accumulator, a new cursor and an updated
request count (next). -/
inductive Step where
  | done (r : FetchRun)
  | next (repos : List Record) (cursor : Option String) (reqs : Nat)
deriving Repr

/-- Whether a Step terminates the pagination loop. -/
def Step.isDone : Step → Bool
  | .done _ => true
  | .next _ _ _ => false

/-- One iteration of the while loop of buscar_repositorios_paginado: the
while condition (len(repositorios) < total), the page request sized
min(por_pagina, total - len(repositorios)), the transport call with the
default 6 attempts, the "errors" key check, the accumulation of non-null
nodes, and the break condition
(not has_next or not cursor or len(repositorios) >= total), returning
repositorios[:total] on exit. -/
def pageStep (oracle : Nat → Request → Outcome) (total pp : Nat)
    (repos : List Record) (cursor : Option String) (reqs : Nat) : Step :=
  if total ≤ repos.length then .done ⟨.ok (repos.take total), reqs⟩
  else
    match post_graphql_com_retry oracle
        ⟨"stars:>0 sort:stars-desc", min pp (total - repos.length), cursor⟩ 6 reqs with
    | ⟨.error e, _, reqs1⟩ => .done ⟨.fail e, reqs1⟩
    | ⟨.ok response, _, reqs1⟩ =>
      match response.body.errors with
      | some errs => .done ⟨.fail (.graphQLErrors errs), reqs1⟩
      | none =>
        if response.body.hasNextPage = false
            ∨ strTruthy response.body.endCursor = false
            ∨ total ≤ (repos ++ response.body.edges.filterMap id).length then
          .done ⟨.ok ((repos ++ response.body.edges.filterMap id).take total), reqs1⟩
        else
          .next (repos ++ response.body.edges.filterMap id) response.body.endCursor reqs1

/-- The pagination while loop, fuelled: fuel bounds the number of
iterations, and running out of fuel is reported as divergence (the Python
loop has no such bound and would still be running). -/
def fetchLoop (oracle : Nat → Request → Outcome) (total pp : Nat) :
    Nat → List Record → Option String → Nat → FetchRun
  | 0, _, _, reqs => ⟨.diverged, reqs⟩
  | fuel + 1, repos, cursor, reqs =>
    match pageStep oracle total pp repos cursor reqs with
    | .done r => r
    | .next repos1 cursor1 reqs1 => fetchLoop oracle total pp fuel repos1 cursor1 reqs1

/-- Module constant REPOS_POR_PAGINA. -/
def REPOS_POR_PAGINA : Int := 10

/-- buscar_repositorios_paginado: defaulting of por_pagina, the two
validation checks, carregar_token (api_token models os.getenv("API_TOKEN"),
with Python falsiness for None and ""), then the pagination loop starting
from an empty accumulator and a null cursor. -/
def buscar_repositorios_paginado (oracle : Nat → Request → Outcome)
    (api_token : Option String) (total : Int) (por_pagina : Option Int)
    (fuel : Nat) : FetchRun :=
  if total ≤ 0 then ⟨.fail .validationTotal, 0⟩
  else if por_pagina.getD REPOS_POR_PAGINA ≤ 0 ∨ 100 < por_pagina.getD REPOS_POR_PAGINA then
    ⟨.fail .validationPorPagina, 0⟩
  else if strTruthy api_token = false then ⟨.fail .missingToken, 0⟩
  else fetchLoop oracle total.toNat (por_pagina.getD REPOS_POR_PAGINA).toNat fuel [] none 0

/-- An opaque continuation token produced by the modelled upstream: the
position encoded in unary (the paginator never inspects it beyond Python
truthiness). -/
def mkCursor (p : Nat) : String := String.mk (List.replicate p 'a')

/-- Position a cursor stands for on the modelled upstream (null means start
of the sequence). -/
def cursorPos : Option String → Nat
  | none => 0
  | some s => s.length

/-- A faithful upstream holding a fixed list of records: it serves, from the
position its cursor argument encodes, at most the requested page size, sets
hasNextPage exactly when records remain after the served page, and returns
a non-empty endCursor exactly when the page is non-empty. -/
def goodServer (records : List Record) : Nat → Request → Outcome :=
  fun _ req =>
    .resp ⟨200,
      { errors := none
        edges := ((records.drop (cursorPos req.after)).take req.first).map some
        hasNextPage :=
          decide (cursorPos req.after
              + ((records.drop (cursorPos req.after)).take req.first).length
            < records.length)
        endCursor :=
          if ((records.drop (cursorPos req.after)).take req.first).length = 0 then none
          else some (mkCursor (cursorPos req.after
              + ((records.drop (cursorPos req.after)).take req.first).length)) }⟩

/-- An upstream that always answers 200 with zero records, hasNextPage true
and an unchanged non-empty cursor: the stall scenario. -/
def stallOracle : Nat → Request → Outcome :=
  fun _ _ => .resp ⟨200, { errors := none, edges := [], hasNextPage := true,
                           endCursor := some "c" }⟩

/-- The closed_ratio derivation inside salvar_csv: the CSV cell is empty
(none) unless issues_total is truthy and positive, in which case it is
closed_total / issues_total. -/
def closedRatioField (issues_total closed_total : Int) : Option ℚ :=
  if issues_total ≠ 0 ∧ 0 < issues_total then
    some ((closed_total : ℚ) / (issues_total : ℚ))
  else none

end Lab01

namespace Lab01

theorem min_double_cap (a : Nat) : min (min a 20 * 2) 20 = min (a * 2) 20 := by omega

theorem backoffDelay_succ (j : Nat) : min (backoffDelay j * 2) 20 = backoffDelay (j + 1) := by
  simp only [backoffDelay, pow_succ]
  omega

theorem backoffDelay_zero : backoffDelay 0 = 1 := rfl

theorem range_map_succ (f : Nat → Nat) (j : Nat) :
    (List.range j).map f ++ [f j] = (List.range (j + 1)).map f := by
  rw [List.range_succ, List.map_append]
  rfl

theorem retryGo_all_transient (oracle : Nat → Request → Outcome) (payload : Request)
    (h : ∀ i, isTransient (oracle i payload) = true) :
    ∀ (fuel j reqs : Nat),
      retryGo oracle payload fuel (backoffDelay j) ((List.range j).map backoffDelay) reqs =
        ⟨.error .retriesExhausted, (List.range (j + fuel)).map backoffDelay, reqs + fuel⟩ := by
  intro fuel
  induction fuel with
  | zero => intro j reqs; simp [retryGo]
  | succ n ih =>
    intro j reqs
    have ht := h reqs
    rw [retryGo]
    cases hor : oracle reqs payload with
    | timeout =>
        simp only []
        rw [backoffDelay_succ, range_map_succ, ih (j + 1) (reqs + 1)]
        have h1 : j + 1 + n = j + (n + 1) := by omega
        have h2 : reqs + 1 + n = reqs + (n + 1) := by omega
        rw [h1, h2]
    | resp r =>
        rw [hor] at ht
        simp only [isTransient, Bool.or_eq_true, beq_iff_eq] at ht
        have ht2 : r.status = 502 ∨ r.status = 503 ∨ r.status = 504 := by tauto
        have h200 : ¬ r.status = 200 := by rcases ht2 with h | h | h <;> omega
        simp only []
        rw [if_neg h200, if_pos ht2, backoffDelay_succ, range_map_succ, ih (j + 1) (reqs + 1)]
        have h1 : j + 1 + n = j + (n + 1) := by omega
        have h2 : reqs + 1 + n = reqs + (n + 1) := by omega
        rw [h1, h2]


theorem retryGo_slept_schedule (oracle : Nat → Request → Outcome) (payload : Request) :
    ∀ (fuel j reqs : Nat),
      ∃ k, (retryGo oracle payload fuel (backoffDelay j)
              ((List.range j).map backoffDelay) reqs).slept
        = (List.range k).map backoffDelay := by
  intro fuel
  induction fuel with
  | zero => intro j reqs; exact ⟨j, rfl⟩
  | succ n ih =>
    intro j reqs
    rw [retryGo]
    cases hor : oracle reqs payload with
    | timeout =>
        simp only []
        rw [backoffDelay_succ, range_map_succ]
        exact ih (j + 1) (reqs + 1)
    | resp r =>
        simp only []
        by_cases h200 : r.status = 200
        · rw [if_pos h200]; exact ⟨j, rfl⟩
        · rw [if_neg h200]
          by_cases htr : r.status = 502 ∨ r.status = 503 ∨ r.status = 504
          · rw [if_pos htr, backoffDelay_succ, range_map_succ]
            exact ih (j + 1) (reqs + 1)
          · rw [if_neg htr]; exact ⟨j, rfl⟩

theorem retryGo_success (oracle : Nat → Request → Outcome) (payload : Request)
    (fuel espera reqs : Nat) (slept : List Nat) (r : Resp)
    (hor : oracle reqs payload = .resp r) (h200 : r.status = 200) :
    retryGo oracle payload (fuel + 1) espera slept reqs = ⟨.ok r, slept, reqs + 1⟩ := by
  rw [retryGo, hor]
  simp only []
  rw [if_pos h200]

theorem retryGo_nontransient (oracle : Nat → Request → Outcome) (payload : Request)
    (fuel espera reqs : Nat) (slept : List Nat) (r : Resp)
    (hor : oracle reqs payload = .resp r) (h200 : ¬ r.status = 200)
    (htr : ¬ (r.status = 502 ∨ r.status = 503 ∨ r.status = 504)) :
    retryGo oracle payload (fuel + 1) espera slept reqs =
      ⟨.error (.graphQLFailure r.status), slept, reqs + 1⟩ := by
  rw [retryGo, hor]
  simp only []
  rw [if_neg h200, if_neg htr]

theorem retryGo_transient_step (oracle : Nat → Request → Outcome) (payload : Request)
    (fuel espera reqs : Nat) (slept : List Nat)
    (htr : isTransient (oracle reqs payload) = true) :
    retryGo oracle payload (fuel + 1) espera slept reqs =
      retryGo oracle payload fuel (min (espera * 2) 20) (slept ++ [espera]) (reqs + 1) := by
  rw [retryGo]
  cases hor : oracle reqs payload with
  | timeout => simp only []
  | resp r =>
      rw [hor] at htr
      simp only [isTransient, Bool.or_eq_true, beq_iff_eq] at htr
      have ht2 : r.status = 502 ∨ r.status = 503 ∨ r.status = 504 := by tauto
      have h200 : ¬ r.status = 200 := by rcases ht2 with h | h | h <;> omega
      simp only []
      rw [if_neg h200, if_pos ht2]

/-- C3: across consecutive transient failures the transport sleeps exactly the
deterministic sequence 1, 2, 4, 8, 16, 20, 20, ...: every run sleeps a prefix
of the canonical schedule min (2 ^ i) 20, an all-transient run of m attempts
sleeps exactly its first m entries, and that schedule starts
1, 2, 4, 8, 16, 20, 20. -/
theorem c3_backoff_schedule (oracle : Nat → Request → Outcome) (payload : Request) :
    (∀ (m reqs0 : Nat), ∃ k,
        (post_graphql_com_retry oracle payload m reqs0).slept
          = (List.range k).map backoffDelay)
    ∧ ((∀ i, isTransient (oracle i payload) = true) → ∀ (m reqs0 : Nat),
        (post_graphql_com_retry oracle payload m reqs0).slept
          = (List.range m).map backoffDelay)
    ∧ (List.range 7).map backoffDelay = [1, 2, 4, 8, 16, 20, 20] := by
  have e1 : (1 : Nat) = backoffDelay 0 := rfl
  have e2 : ([] : List Nat) = (List.range 0).map backoffDelay := rfl
  refine ⟨?_, ?_, by decide⟩
  · intro m reqs0
    rw [post_graphql_com_retry, e1, e2]
    exact retryGo_slept_schedule oracle payload m 0 reqs0
  · intro h m reqs0
    rw [post_graphql_com_retry, e1, e2, retryGo_all_transient oracle payload h m 0 reqs0]
    simp

theorem c3_backoff_schedule_witness :
    (post_graphql_com_retry (fun _ _ => .timeout)
        ⟨"stars:>0 sort:stars-desc", 10, none⟩ 7 0).slept
      = [1, 2, 4, 8, 16, 20, 20] := by
  have h := (c3_backoff_schedule (fun _ _ => .timeout)
      ⟨"stars:>0 sort:stars-desc", 10, none⟩).2.1 (fun _ => rfl) 7 0
  rw [h]
  decide

/-- C4: when every attempt observes a transient failure, the default run of 6
attempts ends in the retries-exhausted error having issued exactly 6 requests
(so no 7th request is ever issued). -/
theorem c4_exhaustion_after_six (oracle : Nat → Request → Outcome) (payload : Request)
    (h : ∀ i, isTransient (oracle i payload) = true) :
    post_graphql_com_retry oracle payload 6 0 =
      ⟨.error .retriesExhausted, [1, 2, 4, 8, 16, 20], 6⟩ := by
  have e1 : (1 : Nat) = backoffDelay 0 := rfl
  have e2 : ([] : List Nat) = (List.range 0).map backoffDelay := rfl
  rw [post_graphql_com_retry, e1, e2, retryGo_all_transient oracle payload h 6 0 0]
  rfl

theorem c4_exhaustion_after_six_witness :
    post_graphql_com_retry (fun _ _ => .timeout)
        ⟨"stars:>0 sort:stars-desc", 10, none⟩ 6 0 =
      ⟨.error .retriesExhausted, [1, 2, 4, 8, 16, 20], 6⟩ :=
  c4_exhaustion_after_six (fun _ _ => .timeout)
    ⟨"stars:>0 sort:stars-desc", 10, none⟩ (fun _ => rfl)

/-- C5 counterexample: a rate-limiting response (HTTP 429; likewise HTTP 500)
is not classified transient: the transport raises the terminal GraphQL
failure after a single request, with no sleep and no retry. -/
theorem c5_rate_limit_not_retried :
    post_graphql_com_retry (fun _ _ => .resp ⟨429, ⟨none, [], false, none⟩⟩)
        ⟨"stars:>0 sort:stars-desc", 10, none⟩ 6 0
      = ⟨.error (.graphQLFailure 429), [], 1⟩
    ∧ post_graphql_com_retry (fun _ _ => .resp ⟨500, ⟨none, [], false, none⟩⟩)
        ⟨"stars:>0 sort:stars-desc", 10, none⟩ 6 0
      = ⟨.error (.graphQLFailure 500), [], 1⟩ :=
  ⟨rfl, rfl⟩

/-- C5 (amended): the transient set retried under the backoff policy is
exactly HTTP 502, 503, 504 and network timeouts; such a first failure is
retried (sleeping backoff delay 1), and a 200 on the second attempt is then
returned with two requests issued. -/
theorem c5_transient_set_retried (oracle : Nat → Request → Outcome) (payload : Request)
    (m : Nat) (h1 : isTransient (oracle 0 payload) = true)
    (r2 : Resp) (h2 : oracle 1 payload = .resp r2) (h200 : r2.status = 200) :
    post_graphql_com_retry oracle payload (m + 2) 0 = ⟨.ok r2, [1], 2⟩ := by
  rw [post_graphql_com_retry, retryGo_transient_step oracle payload (m + 1) 1 0 [] h1,
    retryGo_success oracle payload m (min (1 * 2) 20) 1 ([] ++ [1]) r2 h2 h200]
  simp

theorem c5_transient_set_retried_witness :
    post_graphql_com_retry
        (fun i _ => if i = 0 then .timeout else .resp ⟨200, ⟨none, [], false, none⟩⟩)
        ⟨"stars:>0 sort:stars-desc", 10, none⟩ 6 0
      = ⟨.ok ⟨200, ⟨none, [], false, none⟩⟩, [1], 2⟩ :=
  c5_transient_set_retried
    (fun i _ => if i = 0 then .timeout else .resp ⟨200, ⟨none, [], false, none⟩⟩)
    ⟨"stars:>0 sort:stars-desc", 10, none⟩ 4 rfl ⟨200, ⟨none, [], false, none⟩⟩ rfl rfl


/-- C2: an invalid total (≤ 0) or an invalid por_pagina (outside [1, 100])
makes buscar_repositorios_paginado raise the corresponding ValueError
immediately, with zero requests issued to the transport. -/
theorem c2_validation_no_network (oracle : Nat → Request → Outcome)
    (tok : Option String) (total pp : Int) (pp0 : Option Int) (fuel : Nat) :
    (total ≤ 0 →
      buscar_repositorios_paginado oracle tok total pp0 fuel
        = ⟨.fail .validationTotal, 0⟩)
    ∧ (0 < total → pp ≤ 0 ∨ 100 < pp →
      buscar_repositorios_paginado oracle tok total (some pp) fuel
        = ⟨.fail .validationPorPagina, 0⟩) := by
  constructor
  · intro h
    rw [buscar_repositorios_paginado, if_pos h]
  · intro h1 h2
    simp only [buscar_repositorios_paginado, Option.getD_some]
    rw [if_neg (by omega), if_pos h2]

theorem c2_validation_no_network_witness :
    buscar_repositorios_paginado (fun _ _ => .timeout) (some "t") 0 none 10
      = ⟨.fail .validationTotal, 0⟩
    ∧ buscar_repositorios_paginado (fun _ _ => .timeout) (some "t") 5 (some 101) 10
      = ⟨.fail .validationPorPagina, 0⟩ :=
  ⟨(c2_validation_no_network (fun _ _ => .timeout) (some "t") 0 101 none 10).1
      (by decide),
   (c2_validation_no_network (fun _ _ => .timeout) (some "t") 5 101 (some 101) 10).2
      (by decide) (by decide)⟩

/-- C10: argument validation precedes credential loading: with no token in
the environment, invalid arguments still raise the validation error (never
the missing-token error), and the missing-token error can only arise on a
call whose arguments are valid. -/
theorem c10_validation_precedes_token (oracle : Nat → Request → Outcome)
    (total : Int) (pp0 : Option Int) (fuel : Nat) :
    ((total ≤ 0 ∨ pp0.getD REPOS_POR_PAGINA ≤ 0 ∨ 100 < pp0.getD REPOS_POR_PAGINA) →
      (buscar_repositorios_paginado oracle none total pp0 fuel).result
          ≠ .fail .missingToken
        ∧ ((buscar_repositorios_paginado oracle none total pp0 fuel).result
              = .fail .validationTotal
          ∨ (buscar_repositorios_paginado oracle none total pp0 fuel).result
              = .fail .validationPorPagina))
    ∧ (∀ tok : Option String,
        (buscar_repositorios_paginado oracle tok total pp0 fuel).result
            = .fail .missingToken →
        0 < total ∧ 0 < pp0.getD REPOS_POR_PAGINA ∧ pp0.getD REPOS_POR_PAGINA ≤ 100) := by
  constructor
  · intro h
    rw [buscar_repositorios_paginado]
    by_cases h1 : total ≤ 0
    · rw [if_pos h1]
      exact ⟨by decide, Or.inl rfl⟩
    · rw [if_neg h1, if_pos (by omega)]
      exact ⟨by decide, Or.inr rfl⟩
  · intro tok h
    rw [buscar_repositorios_paginado] at h
    by_cases h1 : total ≤ 0
    · rw [if_pos h1] at h
      exact absurd h (by decide)
    · rw [if_neg h1] at h
      by_cases h2 : pp0.getD REPOS_POR_PAGINA ≤ 0 ∨ 100 < pp0.getD REPOS_POR_PAGINA
      · rw [if_pos h2] at h
        exact absurd h (by decide)
      · omega

theorem c10_validation_precedes_token_witness :
    (buscar_repositorios_paginado (fun _ _ => .timeout) none 0 none 3).result
      = .fail .validationTotal := by
  have h := (c10_validation_precedes_token (fun _ _ => .timeout) 0 none 3).1
      (by decide)
  rcases h.2 with h2 | h2
  · exact h2
  · exact absurd h2 (by decide)

/-- C9: the derived closed-issues ratio is closed_total / issues_total
exactly when issues_total is positive and the empty cell value when
issues_total is zero (no division by zero); in particular issues_total = 0
gives an empty field and issues_total = 10 with closed = 3 gives 0.3. -/
theorem c9_closed_ratio (issues_total closed_total : Int) :
    (0 < issues_total →
      closedRatioField issues_total closed_total
        = some ((closed_total : ℚ) / (issues_total : ℚ)))
    ∧ (issues_total = 0 → closedRatioField issues_total closed_total = none)
    ∧ closedRatioField 0 closed_total = none
    ∧ closedRatioField 10 3 = some (3 / 10 : ℚ)
    ∧ (3 / 10 : ℚ) = 0.3 := by
  refine ⟨?_, ?_, ?_, ?_, by norm_num⟩
  · intro h
    rw [closedRatioField, if_pos ⟨by omega, h⟩]
  · intro h
    rw [closedRatioField, if_neg (by omega)]
  · rw [closedRatioField, if_neg (by omega)]
  · rw [closedRatioField, if_pos (by norm_num)]
    norm_num

theorem c9_closed_ratio_witness :
    closedRatioField 10 3 = some (((3 : Int) : ℚ) / ((10 : Int) : ℚ)) :=
  (c9_closed_ratio 10 3).1 (by decide)


theorem post_retry_success (oracle : Nat → Request → Outcome) (payload : Request)
    (reqs : Nat) (r : Resp) (hor : oracle reqs payload = .resp r)
    (h200 : r.status = 200) :
    post_graphql_com_retry oracle payload 6 reqs = ⟨.ok r, [], reqs + 1⟩ := by
  rw [post_graphql_com_retry]
  exact retryGo_success oracle payload 5 1 reqs [] r hor h200

theorem post_retry_nontransient (oracle : Nat → Request → Outcome) (payload : Request)
    (reqs : Nat) (r : Resp) (hor : oracle reqs payload = .resp r)
    (h200 : ¬ r.status = 200)
    (htr : ¬ (r.status = 502 ∨ r.status = 503 ∨ r.status = 504)) :
    post_graphql_com_retry oracle payload 6 reqs =
      ⟨.error (.graphQLFailure r.status), [], reqs + 1⟩ := by
  rw [post_graphql_com_retry]
  exact retryGo_nontransient oracle payload 5 1 reqs [] r hor h200 htr

theorem fetchLoop_stall (total pp : Nat) (h : 0 < total) :
    ∀ (fuel : Nat) (cursor : Option String) (reqs : Nat),
      (fetchLoop stallOracle total pp fuel [] cursor reqs).result = .diverged := by
  intro fuel
  induction fuel with
  | zero => intro cursor reqs; rfl
  | succ n ih =>
    intro cursor reqs
    have hstep : pageStep stallOracle total pp [] cursor reqs
        = .next [] (some "c") (reqs + 1) := by
      rw [pageStep, if_neg (by simp; omega)]
      rw [post_retry_success stallOracle _ reqs
        ⟨200, { errors := none, edges := [], hasNextPage := true, endCursor := some "c" }⟩
        rfl rfl]
      simp only []
      rw [if_neg (by simp [strTruthy]; omega)]
      rfl
    rw [fetchLoop, hstep]
    exact ih (some "c") (reqs + 1)

/-- C7: on the stall scenario — every page answers 200 with has-more true, an
unchanged non-empty cursor and zero new records — the pagination loop never
terminates: for every iteration bound the run is still diverged, so the code
loops forever instead of raising the stall error the specification requires. -/
theorem c7_stall_loops_forever :
    ∀ fuel : Nat,
      (buscar_repositorios_paginado stallOracle (some "t") 5 (some 10) fuel).result
        = .diverged := by
  intro fuel
  rw [buscar_repositorios_paginado, if_neg (by decide), if_neg (by decide),
    if_neg (by decide)]
  exact fetchLoop_stall 5 10 (by decide) fuel none 0

/-- C6: a non-transient failure — an unsuccessful status outside the transient
set, or an errors list embedded in a 200 body — is terminal: the paginated
fetch fails with the corresponding error carrying the upstream detail after
exactly one request (zero retries), the transport error passing through the
paginator unchanged. -/
theorem c6_nontransient_fail_fast (tok : String) (htok : ¬ tok = "")
    (total pp : Int) (htot : 0 < total) (hpp1 : 1 ≤ pp) (hpp2 : pp ≤ 100)
    (fuel : Nat) (s : Nat) (b : Body) :
    (¬ s = 200 → ¬ (s = 502 ∨ s = 503 ∨ s = 504) →
      buscar_repositorios_paginado (fun _ _ => .resp ⟨s, b⟩) (some tok) total
          (some pp) (fuel + 1)
        = ⟨.fail (.graphQLFailure s), 1⟩)
    ∧ (∀ errs, b.errors = some errs →
      buscar_repositorios_paginado (fun _ _ => .resp ⟨200, b⟩) (some tok) total
          (some pp) (fuel + 1)
        = ⟨.fail (.graphQLErrors errs), 1⟩) := by
  have htoknat : 0 < total.toNat := by omega
  have htokc : ¬ strTruthy (some tok) = false := by simp [strTruthy, htok]
  constructor
  · intro h200 htr
    rw [buscar_repositorios_paginado, if_neg (by omega)]
    simp only [Option.getD_some]
    rw [if_neg (by omega), if_neg htokc, fetchLoop]
    have hstep : pageStep (fun _ _ => Outcome.resp ⟨s, b⟩) total.toNat pp.toNat [] none 0
        = .done ⟨.fail (.graphQLFailure s), 1⟩ := by
      rw [pageStep, if_neg (by simp; omega)]
      rw [post_retry_nontransient (fun _ _ => Outcome.resp ⟨s, b⟩) _ 0 ⟨s, b⟩ rfl h200 htr]
    rw [hstep]
  · intro errs herrs
    rw [buscar_repositorios_paginado, if_neg (by omega)]
    simp only [Option.getD_some]
    rw [if_neg (by omega), if_neg htokc, fetchLoop]
    have hstep : pageStep (fun _ _ => Outcome.resp ⟨200, b⟩) total.toNat pp.toNat [] none 0
        = .done ⟨.fail (.graphQLErrors errs), 1⟩ := by
      rw [pageStep, if_neg (by simp; omega)]
      rw [post_retry_success (fun _ _ => Outcome.resp ⟨200, b⟩) _ 0 ⟨200, b⟩ rfl rfl]
      simp only []
      rw [herrs]
    rw [hstep]

theorem c6_nontransient_fail_fast_witness :
    buscar_repositorios_paginado (fun _ _ => .resp ⟨401, ⟨none, [], false, none⟩⟩)
        (some "t") 5 (some 10) 1
      = ⟨.fail (.graphQLFailure 401), 1⟩
    ∧ buscar_repositorios_paginado
        (fun _ _ => .resp ⟨200, ⟨some ["boom"], [], false, none⟩⟩)
        (some "t") 5 (some 10) 1
      = ⟨.fail (.graphQLErrors ["boom"]), 1⟩ :=
  ⟨(c6_nontransient_fail_fast "t" (by decide) 5 10 (by decide) (by decide) (by decide)
      0 401 ⟨none, [], false, none⟩).1 (by decide) (by decide),
   (c6_nontransient_fail_fast "t" (by decide) 5 10 (by decide) (by decide) (by decide)
      0 401 ⟨some ["boom"], [], false, none⟩).2 ["boom"] rfl⟩


/-- C8: inside the pagination loop (accumulator still short of the target),
after a successful page with no errors list, the iteration terminates the
loop exactly when has-more is false, or the new cursor is absent/empty, or
the accumulator has reached the target; in particular the absent/empty
cursor terminates the loop even when has-more claims more pages. -/
theorem c8_termination_conditions (oracle : Nat → Request → Outcome)
    (total pp : Nat) (repos : List Record) (cursor : Option String) (reqs : Nat)
    (hlen : repos.length < total) (resp : Resp) (slept : List Nat) (reqs1 : Nat)
    (hrun : post_graphql_com_retry oracle
        ⟨"stars:>0 sort:stars-desc", min pp (total - repos.length), cursor⟩ 6 reqs
      = ⟨.ok resp, slept, reqs1⟩)
    (herr : resp.body.errors = none) :
    (pageStep oracle total pp repos cursor reqs).isDone = true
      ↔ (resp.body.hasNextPage = false
        ∨ strTruthy resp.body.endCursor = false
        ∨ total ≤ (repos ++ resp.body.edges.filterMap id).length) := by
  rw [pageStep, if_neg (by omega), hrun]
  simp only []
  rw [herr]
  simp only []
  by_cases hc : resp.body.hasNextPage = false ∨ strTruthy resp.body.endCursor = false
      ∨ total ≤ (repos ++ resp.body.edges.filterMap id).length
  · rw [if_pos hc]
    simp only [Step.isDone]
    simpa using hc
  · rw [if_neg hc]
    simp only [Step.isDone]
    simpa using hc

theorem c8_termination_conditions_witness :
    ((pageStep (fun _ _ => .resp ⟨200, ⟨none, [some ⟨0⟩], true, some "c"⟩⟩)
        5 10 [] none 0).isDone = true
      ↔ ((⟨200, ⟨none, [some ⟨0⟩], true, some "c"⟩⟩ : Resp).body.hasNextPage = false
        ∨ strTruthy (⟨200, ⟨none, [some ⟨0⟩], true, some "c"⟩⟩ : Resp).body.endCursor
            = false
        ∨ 5 ≤ (([] : List Record)
            ++ (⟨200, ⟨none, [some ⟨0⟩], true, some "c"⟩⟩ : Resp).body.edges.filterMap
              id).length)) :=
  c8_termination_conditions (fun _ _ => .resp ⟨200, ⟨none, [some ⟨0⟩], true, some "c"⟩⟩)
    5 10 [] none 0 (by decide) ⟨200, ⟨none, [some ⟨0⟩], true, some "c"⟩⟩ [] 1 rfl rfl


theorem filterMap_id_map_some (l : List Record) : (l.map some).filterMap id = l := by
  simp

theorem mkCursor_length (k : Nat) : (mkCursor k).length = k := by
  simp [mkCursor, String.length]

theorem mkCursor_ne_empty (k : Nat) (h : 0 < k) : ¬ mkCursor k = "" := by
  intro he
  have hd : (mkCursor k).data = ("" : String).data := by rw [he]
  simp [mkCursor] at hd
  omega

theorem strTruthy_mkCursor (k : Nat) (h : 0 < k) :
    strTruthy (some (mkCursor k)) = true := by
  simp [strTruthy, mkCursor_ne_empty k h]

theorem goodServer_unfold (records : List Record) (i : Nat) (req : Request) :
    goodServer records i req =
      .resp ⟨200,
        { errors := none
          edges := ((records.drop (cursorPos req.after)).take req.first).map some
          hasNextPage := decide (cursorPos req.after
              + ((records.drop (cursorPos req.after)).take req.first).length
            < records.length)
          endCursor :=
            if ((records.drop (cursorPos req.after)).take req.first).length = 0 then none
            else some (mkCursor (cursorPos req.after
                + ((records.drop (cursorPos req.after)).take req.first).length)) }⟩ :=
  rfl

theorem fetchLoop_goodServer (records : List Record) (total pp : Nat) (hpp : 1 ≤ pp) :
    ∀ (fuel p reqs : Nat) (cursor : Option String),
      cursorPos cursor = p → p ≤ records.length → p < total → total - p ≤ fuel →
      (fetchLoop (goodServer records) total pp fuel (records.take p) cursor reqs).result
        = .ok (records.take (min total records.length)) := by
  intro fuel
  induction fuel with
  | zero =>
    intro p reqs cursor _ _ h3 h4
    omega
  | succ n ih =>
    intro p reqs cursor hcur hpN hpt hfuel
    have hlen : (records.take p).length = p := by
      rw [List.length_take]; omega
    rw [fetchLoop, pageStep, hlen, if_neg (by omega)]
    rw [post_retry_success (goodServer records)
        ⟨"stars:>0 sort:stars-desc", min pp (total - p), cursor⟩ reqs _
        (goodServer_unfold records reqs _) rfl]
    simp only [hcur, filterMap_id_map_some]
    have happ : List.take p records
          ++ List.take (pp ⊓ (total - p)) (List.drop p records)
        = List.take (p + pp ⊓ (total - p)) records :=
      (List.take_add records p (pp ⊓ (total - p))).symm
    rw [happ]
    simp only [List.length_take, List.length_drop]
    by_cases hcont : p + (pp ⊓ (total - p)) ⊓ (records.length - p) < records.length
        ∧ p + (pp ⊓ (total - p)) ⊓ (records.length - p) < total
    · have hs0 : ¬ (pp ⊓ (total - p)) ⊓ (records.length - p) = 0 := by omega
      have hsq : (pp ⊓ (total - p)) ⊓ (records.length - p) = pp ⊓ (total - p) := by omega
      have hnot : ¬ (decide (p + (pp ⊓ (total - p)) ⊓ (records.length - p)
              < records.length) = false
          ∨ strTruthy (if (pp ⊓ (total - p)) ⊓ (records.length - p) = 0 then none
              else some (mkCursor (p + (pp ⊓ (total - p)) ⊓ (records.length - p))))
            = false
          ∨ total ≤ (p + pp ⊓ (total - p)) ⊓ records.length) := by
        intro hd
        rcases hd with hd | hd | hd
        · simp only [decide_eq_false_iff_not] at hd
          omega
        · rw [if_neg hs0, strTruthy_mkCursor _ (by omega)] at hd
          exact Bool.noConfusion hd
        · omega
      rw [if_neg hnot]
      simp only []
      rw [if_neg hs0, hsq]
      exact ih (p + pp ⊓ (total - p)) (reqs + 1) (some (mkCursor (p + pp ⊓ (total - p))))
        (by simp [cursorPos, mkCursor_length]) (by omega) (by omega) (by omega)
    · have hC : decide (p + (pp ⊓ (total - p)) ⊓ (records.length - p)
              < records.length) = false
          ∨ strTruthy (if (pp ⊓ (total - p)) ⊓ (records.length - p) = 0 then none
              else some (mkCursor (p + (pp ⊓ (total - p)) ⊓ (records.length - p))))
            = false
          ∨ total ≤ (p + pp ⊓ (total - p)) ⊓ records.length := by
        by_cases hn : p + (pp ⊓ (total - p)) ⊓ (records.length - p) < records.length
        · exact Or.inr (Or.inr (by omega))
        · exact Or.inl (by simp only [decide_eq_false_iff_not]; omega)
      rw [if_pos hC]
      simp only []
      rw [List.take_take]
      have heq : List.take (total ⊓ (p + pp ⊓ (total - p))) records
          = List.take (total ⊓ records.length) records :=
        List.take_eq_take.mpr (by omega)
      rw [heq]


theorem pageStep_done_ok_le (oracle : Nat → Request → Outcome) (total pp : Nat)
    (repos : List Record) (cursor : Option String) (reqs reqs1 : Nat)
    (l : List Record)
    (h : pageStep oracle total pp repos cursor reqs = .done ⟨.ok l, reqs1⟩) :
    l.length ≤ total := by
  rw [pageStep] at h
  split at h
  · simp only [Step.done.injEq, FetchRun.mk.injEq, FetchResult.ok.injEq] at h
    rw [← h.1]
    exact List.length_take_le total repos
  · split at h
    · simp at h
    · split at h
      · simp at h
      · split at h
        · simp only [Step.done.injEq, FetchRun.mk.injEq, FetchResult.ok.injEq] at h
          rw [← h.1]
          exact List.length_take_le total _
        · simp at h

theorem fetchLoop_ok_le (oracle : Nat → Request → Outcome) (total pp : Nat) :
    ∀ (fuel : Nat) (repos : List Record) (cursor : Option String) (reqs : Nat)
      (l : List Record),
      (fetchLoop oracle total pp fuel repos cursor reqs).result = .ok l →
      l.length ≤ total := by
  intro fuel
  induction fuel with
  | zero =>
    intro repos cursor reqs l h
    rw [fetchLoop] at h
    exact absurd h (by simp)
  | succ n ih =>
    intro repos cursor reqs l h
    rw [fetchLoop] at h
    cases hstep : pageStep oracle total pp repos cursor reqs with
    | done r =>
        rw [hstep] at h
        simp only [] at h
        cases r with
        | mk res reqr =>
            subst h
            exact pageStep_done_ok_le oracle total pp repos cursor reqs reqr l hstep
    | next r1 c1 q1 =>
        rw [hstep] at h
        simp only [] at h
        exact ih r1 c1 q1 l h

/-- C1: with valid arguments, the paginated fetch over a faithful upstream
holding N records returns exactly the first min(target, N) records, a list
whose length is min(target, N); and over any upstream whatsoever a
successful fetch never returns more than target records. -/
theorem c1_fetch_min_length (records : List Record) (total pp : Int) (tok : String)
    (htok : ¬ tok = "") (htot : 0 < total) (hpp1 : 1 ≤ pp) (hpp2 : pp ≤ 100) :
    ((buscar_repositorios_paginado (goodServer records) (some tok) total (some pp)
          total.toNat).result
        = .ok (records.take (min total.toNat records.length)))
    ∧ (records.take (min total.toNat records.length)).length
        = min total.toNat records.length
    ∧ (∀ (oracle : Nat → Request → Outcome) (fuel : Nat) (l : List Record),
        (buscar_repositorios_paginado oracle (some tok) total (some pp) fuel).result
          = .ok l → l.length ≤ total.toNat) := by
  have htokc : ¬ strTruthy (some tok) = false := by simp [strTruthy, htok]
  refine ⟨?_, by rw [List.length_take]; omega, ?_⟩
  · rw [buscar_repositorios_paginado, if_neg (by omega)]
    simp only [Option.getD_some]
    rw [if_neg (by omega), if_neg htokc]
    exact fetchLoop_goodServer records total.toNat pp.toNat (by omega) total.toNat 0 0
      none rfl (by omega) (by omega) (by omega)
  · intro oracle fuel l h
    rw [buscar_repositorios_paginado, if_neg (by omega)] at h
    simp only [Option.getD_some] at h
    rw [if_neg (by omega), if_neg htokc] at h
    exact fetchLoop_ok_le oracle total.toNat pp.toNat fuel [] none 0 l h

theorem c1_fetch_min_length_witness :
    (buscar_repositorios_paginado (goodServer [⟨0⟩, ⟨1⟩, ⟨2⟩]) (some "t") 5 (some 2)
        5).result
      = .ok [⟨0⟩, ⟨1⟩, ⟨2⟩] :=
  ((c1_fetch_min_length [⟨0⟩, ⟨1⟩, ⟨2⟩] 5 2 "t" (by decide) (by decide) (by decide)
      (by decide)).1).trans (by decide)

end Lab01
